import Mathlib

/-!
# Verification of the calcifer-infra orchestration core

A shallow embedding of the task-orchestration core of the repository:

* `src/core/models.py` — `TaskStatus`, `StandardResult`;
* `src/core/engine.py` — `MatrixEngine.run` and `MatrixEngine._handle_results`;
* `src/core/registry.py` — `GROUP_EXECUTION_ORDER`, `TASK_REGISTRY`;
* `src/core/decorators.py` — the `automated_step` wrapper;
* `src/tasks/utils/command.py` — the `run_command` dispatcher;
* `src/tasks/utils/files.py` — `read_file`, `write_file`, `ensure_line_in_file`
  (mirrored, with the same structure, by `src/utils/linux.py`).

The remote filesystem is modelled as an association list from paths to file
contents.  Remote commands issued by `write_file` (scp transfer, backup
`mkdir`+`cp`, `mv`, `rm`) are modelled as explicit state transitions, with the
success or failure of each fallible stage injected through a `WriteEnv` record
(the source observes these outcomes through `Result.failed` of each command).
The MD5 content hash used by the idempotency check is kept abstract as a
function parameter `md5 : String → String`, since the source only compares
hash values for equality.  Nornir's per-group dispatch (a join barrier over
all hosts of the group) is modelled as a single `Dispatch` event carrying the
results of every host.
-/

set_option autoImplicit false

/-- `src/core/models.py`, class `TaskStatus`. -/
inductive TaskStatus where
  | OK
  | CHANGED
  | WARNING
  | FAILED
  | SKIPPED
deriving DecidableEq, Repr

/-- `src/core/models.py`, class `StandardResult` (the `data` field carries an
opaque payload that none of the verified code inspects; it is omitted). -/
structure StandardResult where
  status : TaskStatus
  message : String
deriving DecidableEq, Repr

/-- The payload found in a Nornir `Result.result` slot: either one of this
repository's `StandardResult` values or some other Python object, of which
the engine only ever uses `str(payload)` (engine.py line 101). -/
inductive ResultPayload where
  | standard (r : StandardResult)
  | other (s : String)
deriving DecidableEq, Repr

/-- A Nornir `Result` as consumed by the engine: the `failed` flag and the
`result` payload. -/
structure NornirResult where
  failed : Bool
  payload : ResultPayload
deriving DecidableEq, Repr

/-- An inventory host: its name and group memberships
(`h.groups` in engine.py line 52). -/
structure Host where
  name : String
  groups : List String
deriving DecidableEq, Repr

/-- One dispatch of one task to every host of one group
(`group_hosts.run(task=task_func)` in engine.py line 71): the group, the
task, and the per-host aggregated results. -/
structure Dispatch where
  group : String
  taskName : String
  results : List (String × NornirResult)
deriving DecidableEq, Repr

/-- How a run of `MatrixEngine.run` ends: the goal was not in the registry
(engine.py lines 36-38, a plain `return`), the run was halted by
`sys.exit(1)` (line 79), or every group completed (fall through the loop). -/
inductive RunExit where
  | unknownGoal
  | halted
  | completed
deriving DecidableEq, Repr

/-- The process exit code produced by each way a run can end: only the
critical-failure halt calls `sys.exit(1)`; both the unknown-goal `return`
and normal completion let the CLI process exit 0. -/
def exitCode : RunExit → Nat
  | RunExit.halted => 1
  | RunExit.unknownGoal => 0
  | RunExit.completed => 0

/-- Dictionary lookup (`dict.get` / `in`) on an association list. -/
def lookupStr {α : Type} : List (String × α) → String → Option α
  | [], _ => none
  | (k, v) :: rest, key => if k = key then some v else lookupStr rest key

/-- `src/core/engine.py` lines 96-104: extract the status used for rendering
and flow control from one host result.  A `StandardResult` payload supplies
its own `status` (the outer `failed` flag is not consulted); any other
payload is classified `FAILED` exactly when the outer `failed` flag is set. -/
def classifyStatus (tr : NornirResult) : TaskStatus :=
  match tr.payload with
  | ResultPayload.standard r => r.status
  | ResultPayload.other _ => if tr.failed then TaskStatus.FAILED else TaskStatus.OK

/-- `src/core/engine.py` lines 81-120, `MatrixEngine._handle_results`: scan
the aggregated results and return `true` iff some host's classified status is
`FAILED` (the `has_critical_failure` accumulator). -/
def handleResults (agg : List (String × NornirResult)) : Bool :=
  agg.foldl (fun acc hr => if classifyStatus hr.2 = TaskStatus.FAILED then true else acc) false

/-- Running one task against every host of the filtered group:
each host produces the result given by the behaviour function `b`. -/
def dispatchTask (b : String → String → NornirResult) (hostNames : List String) (t : String) :
    List (String × NornirResult) :=
  hostNames.map fun h => (h, b t h)

/-- `src/core/engine.py` lines 50-57: hosts of the group (membership test
`group_name in h.groups`), then the optional exact-name `--target` filter,
projected to host names. -/
def hostNamesFor (hosts : List Host) (filter : Option String) (g : String) : List String :=
  (((hosts.filter fun h => g ∈ h.groups).filter fun h =>
      match filter with
      | none => true
      | some n => h.name = n).map Host.name)

/-- `src/core/engine.py` lines 63-79, the inner task loop: run the chain in
registry order, collecting one `Dispatch` per task; the first dispatch whose
results contain a critical failure stops the loop (the `Bool` of the pair). -/
def runTasks (b : String → String → NornirResult) (groupName : String)
    (hostNames : List String) : List String → List Dispatch × Bool
  | [] => ([], false)
  | t :: ts =>
    let res := dispatchTask b hostNames t
    if handleResults res then ([⟨groupName, t, res⟩], true)
    else
      let rest := runTasks b groupName hostNames ts
      (⟨groupName, t, res⟩ :: rest.1, rest.2)

/-- `src/core/engine.py` lines 43-79, the group loop: groups are visited in
the given order; a group with no tasks for this goal or no matching hosts is
skipped; a halt inside a group stops all later groups. -/
def runGroups (b : String → String → NornirResult) (table : List (String × List String))
    (hosts : List Host) (filter : Option String) : List String → List Dispatch × Bool
  | [] => ([], false)
  | g :: gs =>
    let tasks := (lookupStr table g).getD []
    if tasks.isEmpty then runGroups b table hosts filter gs
    else
      let hns := hostNamesFor hosts filter g
      if hns.isEmpty then runGroups b table hosts filter gs
      else
        let tr := runTasks b g hns tasks
        if tr.2 then (tr.1, true)
        else
          let rest := runGroups b table hosts filter gs
          (tr.1 ++ rest.1, rest.2)

/-- `src/core/registry.py` line 17. -/
def GROUP_EXECUTION_ORDER : List String :=
  ["local_machine", "k8s_control_plane", "k8s_worker"]

/-- `src/core/registry.py` lines 19-65: the two-level goal/group table, with
tasks identified by the registered function names. -/
def TASK_REGISTRY : List (String × List (String × List String)) :=
  [("INIT",
    [("local_machine",
      ["check_internet_access", "gather_system_facts", "ensure_azure_cli", "ensure_azure_login"]),
     ("k8s_control_plane",
      ["check_internet_access", "gather_system_facts", "set_hostname_and_hosts",
       "prepare_k8s_node", "install_containerd", "install_kubernetes_tools",
       "init_control_plane", "setup_fluxcd"]),
     ("k8s_worker",
      ["check_internet_access", "gather_system_facts", "set_hostname_and_hosts",
       "prepare_k8s_node", "install_containerd", "install_kubernetes_tools"])]),
   ("ARC",
    [("local_machine",
      ["check_internet_access", "gather_system_facts", "ensure_azure_cli",
       "ensure_azure_login", "install_arc_agent"]),
     ("k8s_control_plane", []),
     ("k8s_worker", [])])]

/-- The observable outcome of one `MatrixEngine.run` call: the ordered trace
of dispatches and the way the run ended. -/
structure RunOutput where
  trace : List Dispatch
  exit : RunExit
deriving DecidableEq, Repr

/-- `src/core/engine.py` lines 32-79, `MatrixEngine.run`: an unknown goal
prints an error and returns (no dispatch, normal process exit); otherwise the
groups of `GROUP_EXECUTION_ORDER` are processed and a critical failure turns
into `sys.exit(1)`. -/
def MatrixEngine.run (b : String → String → NornirResult)
    (registry : List (String × List (String × List String)))
    (hosts : List Host) (goal : String) (filter : Option String) : RunOutput :=
  match lookupStr registry goal with
  | none => ⟨[], RunExit.unknownGoal⟩
  | some table =>
    let r := runGroups b table hosts filter GROUP_EXECUTION_ORDER
    ⟨r.1, if r.2 then RunExit.halted else RunExit.completed⟩

/-- The dispatches a group contributes when nothing halts the run:
nothing if the goal has no tasks for the group or no host matches, otherwise
one dispatch per task of the chain, in chain order. -/
def groupTrace (b : String → String → NornirResult) (table : List (String × List String))
    (hosts : List Host) (filter : Option String) (g : String) : List Dispatch :=
  let tasks := (lookupStr table g).getD []
  if tasks.isEmpty then []
  else
    let hns := hostNamesFor hosts filter g
    if hns.isEmpty then []
    else tasks.map fun t => ⟨g, t, dispatchTask b hns t⟩

/-- The trace the spec prescribes for a failure-free run: groups in the fixed
execution order, each contributing its chain in registry order (spec §4.5,
"Group/task ordering"). -/
def specOrderedTrace (b : String → String → NornirResult)
    (table : List (String × List String)) (hosts : List Host)
    (filter : Option String) : List Dispatch :=
  (GROUP_EXECUTION_ORDER.map (groupTrace b table hosts filter)).flatten

/-- The outcome of one Python task invocation as seen by the `automated_step`
wrapper in `src/core/decorators.py`: either the function returned a Nornir
result, or it raised an exception with message `str(e)`. -/
inductive TaskOutcome where
  | ok (r : NornirResult)
  | exc (e : String)
deriving DecidableEq, Repr

/-- `src/core/decorators.py` lines 23-52: a normal return passes through
unchanged; any exception is caught and converted into
`Result(failed=True, result=StandardResult(FAILED, "System Error: ..."))`. -/
def automated_step (outcome : TaskOutcome) : NornirResult :=
  match outcome with
  | TaskOutcome.ok r => r
  | TaskOutcome.exc e =>
    ⟨true, ResultPayload.standard ⟨TaskStatus.FAILED, "System Error: " ++ e⟩⟩

/-- The message text of a Nornir result: the `StandardResult` message or
`str(payload)` (engine.py lines 101-104). -/
def resultMessage (r : NornirResult) : String :=
  match r.payload with
  | ResultPayload.standard sr => sr.message
  | ResultPayload.other s => s

/-- The uniform command result of the dispatcher layer
(`Result(failed=..., result=...)` in `src/tasks/utils/command.py`). -/
structure CmdResult where
  failed : Bool
  output : String
deriving DecidableEq, Repr

/-- `s` starts with the char list `needle` (structural helper, kept
kernel-reducible so concrete witnesses evaluate). -/
def charsStartWith : List Char → List Char → Bool
  | [], _ => true
  | _ :: _, [] => false
  | a :: as, b :: bs => a == b && charsStartWith as bs

/-- The char list `needle` occurs somewhere in the first list. -/
def charsContain : List Char → List Char → Bool
  | [], needle => needle.isEmpty
  | c :: rest, needle => charsStartWith needle (c :: rest) || charsContain rest needle

/-- `True` iff `pat` occurs in `s` (Python `pat in s`). -/
def containsSubstr (s pat : String) : Bool :=
  charsContain s.data pat.data

/-- The distinguished operator-facing message built in
`src/tasks/utils/command.py` lines 36-43 when the remote system reports that
sudo needs a password. -/
def sudoMissingMsg (user host : String) : String :=
  "Sudo privileges missing. Please configure \x27NOPASSWD\x27 for user \x27" ++ user ++
    "\x27 in /etc/sudoers on host \x27" ++ host ++ "\x27."

/-- `src/tasks/utils/command.py` lines 10-45, `run_command`.  The platform
dispatch (local subprocess vs remote session) is abstracted into `execCmd`,
the transport executing one shell command string.  Note that the sudo
wrapping is always the non-interactive `sudo -n` form: the cached
`SUDO_PASSWORD` of `src/core/state.py` is never read by this module, which is
why the parameter `sudoPassword` does not occur on the right-hand side. -/
def run_command (user host : String) (sudoPassword : Option String)
    (execCmd : String → CmdResult) (cmd : String) (useSudo : Bool) : CmdResult :=
  let wrapped := if useSudo then "sudo -n " ++ cmd else cmd
  let result := execCmd wrapped
  if result.failed && containsSubstr result.output ("sudo: a password is required") then
    ⟨true, sudoMissingMsg user host⟩
  else result

/-- `src/tasks/utils.py` lines 11-42: the superseded dispatcher variant whose
sudo wrapping does pipe a cached secret to the sudo prompt
(`echo pw | sudo -S -p`) and falls back to plain `sudo` otherwise.  Kept for
comparison with `run_command`; the engine's current task modules import the
`src/tasks/utils/command.py` version above. -/
def legacySudoWrap (sudoPassword : Option String) (useSudo : Bool) (cmd : String) : String :=
  if useSudo then
    match sudoPassword with
    | some pw =>
      "echo \x27" ++ pw.replace ("\x27") ("\x27\\\x27\x27") ++ "\x27 | sudo -S -p \x27\x27 " ++ cmd
    | none => "sudo " ++ cmd
  else cmd

/-- Remove every binding of `p` from the filesystem association list. -/
def fsRemove : List (String × String) → String → List (String × String)
  | [], _ => []
  | e :: rest, p => if e.1 = p then fsRemove rest p else e :: fsRemove rest p

/-- Bind `p` to `v` in the filesystem association list. -/
def fsSet (fs : List (String × String)) (p v : String) : List (String × String) :=
  (p, v) :: fsRemove fs p

/-- `src/tasks/utils/files.py` lines 25-35, `read_file`: a missing file (and
a failing `cat`) reads as the empty string, otherwise the content. -/
def read_file (fs : List (String × String)) (path : String) : String :=
  match lookupStr fs path with
  | none => ""
  | some c => c

/-- Success/failure injection and fresh names for one `write_file` call:
whether the scp transfer, the backup command and the `mv` command succeed
(with the stderr text each contributes to its failure message), whether the
`chown`/`chmod` commands succeed, the unique remote temp path
(`/tmp/calcifer_<uuid>`) and the backup timestamp. -/
structure WriteEnv where
  scpOk : Bool
  scpErr : String
  backupOk : Bool
  backupErr : String
  mvOk : Bool
  mvErr : String
  chownOk : Bool
  chmodOk : Bool
  tempName : String
  timestamp : String
deriving DecidableEq, Repr

/-- `src/tasks/utils/files.py` lines 89-95: the versioned backup path,
`$HOME/.calcifer_backups/<path-with-slashes-replaced>.<timestamp>.bak`. -/
def backupPathOf (path timestamp : String) : String :=
  "$HOME/.calcifer_backups/" ++ path.replace ("/") ("_") ++ "." ++ timestamp ++ ".bak"

/-- `src/tasks/utils/files.py` lines 38-128, `write_file` (and identically
`src/utils/linux.py` lines 112-194): MD5 idempotency check, scp transfer to
a unique remote temp path, versioned backup of an existing destination
(aborting and removing the temp file if the backup command fails), sudo `mv`
of the temp file onto the destination (again aborting and removing the temp
file on failure), then `chown` and `chmod`.  The source runs the `chown` and
`chmod` commands at lines 116-121 but discards their results, so neither
`chownOk` nor `chmodOk` influences the returned value. -/
def write_file (md5 : String → String) (env : WriteEnv) (fs : List (String × String))
    (path content : String) : (Bool × Bool × String) × List (String × String) :=
  let new_hash := md5 content
  let current_hash := md5 (read_file fs path)
  if new_hash = current_hash then
    ((false, false, "File is up to date"), fs)
  else if env.scpOk = false then
    ((true, false, "SCP Failed: " ++ env.scpErr), fs)
  else
    let fs1 := fsSet fs env.tempName content
    let destExists := (lookupStr fs1 path).isSome
    if destExists && !env.backupOk then
      ((true, false, "Backup failed: " ++ env.backupErr), fsRemove fs1 env.tempName)
    else
      let fs2 := if destExists then fsSet fs1 (backupPathOf path env.timestamp) (read_file fs1 path) else fs1
      if env.mvOk = false then
        ((true, false, "Move failed: " ++ env.mvErr), fsRemove fs2 env.tempName)
      else
        let fs3 := fsSet (fsRemove fs2 env.tempName) path (read_file fs2 env.tempName)
        ((false, true, "File updated (Backup saved)"), fs3)

/-- The `failed` flag of a `write_file` result triple. -/
def wfFailed (r : Bool × Bool × String) : Bool := r.1

/-- The `changed` flag of a `write_file` result triple. -/
def wfChanged (r : Bool × Bool × String) : Bool := r.2.1

/-- The message of a `write_file` result triple. -/
def wfMessage (r : Bool × Bool × String) : String := r.2.2

/-- Split a char list at every newline character. -/
def splitNewlineChars : List Char → List (List Char)
  | [] => [[]]
  | c :: rest =>
    if c == '\n' then [] :: splitNewlineChars rest
    else
      match splitNewlineChars rest with
      | [] => [[c]]
      | l :: ls => (c :: l) :: ls

/-- Python `str.splitlines` restricted to `\n` separators: no trailing empty
line for content ending in a newline, and `[]` for the empty string
(implemented structurally over the char list so it kernel-reduces). -/
def splitLines (s : String) : List String :=
  if s = "" then []
  else
    let parts := (splitNewlineChars s.data).map List.asString
    if parts.getLast? = some "" then parts.dropLast else parts

/-- `src/tasks/utils/files.py` lines 131-160, `ensure_line_in_file` (and
identically `src/utils/linux.py` lines 197-220).  With a match pattern, the
source loop appends the replacement `line` for every current line the regex
matches and keeps the others (appending `line` at the end when no line
matched); the regex `re.search` test is abstracted as the predicate
`regex : String → Bool`.  Without a pattern, an exact-line hit returns
changed=false and otherwise the line is appended.  Content is rejoined with
newlines plus a trailing newline and written through `write_file`. -/
def ensure_line_in_file (md5 : String → String) (env : WriteEnv)
    (fs : List (String × String)) (path line : String)
    (matchRegex : Option (String → Bool)) : (Bool × Bool × String) × List (String × String) :=
  let content := read_file fs path
  let lines := splitLines content
  match matchRegex with
  | some regex =>
    let new_lines := lines.map fun l => if regex l then line else l
    let found := lines.any fun l => regex l
    let final_lines := if found then new_lines else new_lines ++ [line]
    write_file md5 env fs path (String.intercalate ("\n") final_lines ++ "\n")
  | none =>
    if line ∈ lines then ((false, false, "Line already exists"), fs)
    else write_file md5 env fs path (String.intercalate ("\n") (lines ++ [line]) ++ "\n")

/-- A fully successful `WriteEnv` fixture used by concrete witnesses. -/
def envAllOk : WriteEnv :=
  ⟨true, "", true, "", true, "", true, true, "/tmp/calcifer_aaaa", "20240101_000000"⟩

/-- A `WriteEnv` fixture whose backup command fails. -/
def envBackupFails : WriteEnv :=
  ⟨true, "", false, "cp: permission denied", true, "", true, true,
    "/tmp/calcifer_aaaa", "20240101_000000"⟩

/-- A `WriteEnv` fixture whose chown command fails (everything else succeeds). -/
def envChownFails : WriteEnv :=
  ⟨true, "", true, "", true, "", false, true, "/tmp/calcifer_aaaa", "20240101_000000"⟩

/-- A `WriteEnv` fixture whose `mv` command fails. -/
def envMoveFails : WriteEnv :=
  ⟨true, "", true, "", false, "mv: no space left on device", true, true,
    "/tmp/calcifer_aaaa", "20240101_000000"⟩

/-- What the amended claim C8 says `ensure_line_in_file` writes when a match
pattern is given: every line matching the pattern replaced by `line`, with
`line` appended when no line matches. -/
def specReplacedLines (fs : List (String × String)) (path line : String)
    (regex : String → Bool) : List String :=
  let lines := splitLines (read_file fs path)
  let new_lines := lines.map fun l => if regex l then line else l
  if lines.any fun l => regex l then new_lines else new_lines ++ [line]

/-- A host-result fixture with a FAILED standard payload. -/
def failedResult : NornirResult :=
  ⟨true, ResultPayload.standard ⟨TaskStatus.FAILED, "boom"⟩⟩

/-- A host-result fixture with an OK standard payload. -/
def okResult : NornirResult :=
  ⟨false, ResultPayload.standard ⟨TaskStatus.OK, "fine"⟩⟩

/-- A behaviour under which every task fails on every host. -/
def bAllFail : String → String → NornirResult := fun _ _ => failedResult

/-- A behaviour under which every task succeeds on every host. -/
def bAllOk : String → String → NornirResult := fun _ _ => okResult

/-- A two-group registry fixture for the engine witnesses. -/
def wRegistry : List (String × List (String × List String)) :=
  [("DEPLOY", [("local_machine", ["T1"]), ("k8s_control_plane", ["T2"])])]

/-- Hosts fixture: one local host and one control-plane host. -/
def wHosts : List Host :=
  [⟨"laptop", ["local_machine"]⟩, ⟨"cp1", ["k8s_control_plane"]⟩]

/-- The first dispatch of `wRegistry` under the all-fail behaviour. -/
def dFail : Dispatch :=
  ⟨"local_machine", "T1", [("laptop", failedResult)]⟩

/-! ## Helper lemmas about the filesystem model -/

theorem lookup_fsRemove_self (fs : List (String × String)) (p : String) :
    lookupStr (fsRemove fs p) p = none := by
  induction fs with
  | nil => rfl
  | cons e rest ih =>
    by_cases hep : e.1 = p
    · simp [fsRemove, hep, ih]
    · simp [fsRemove, hep, ih, lookupStr]

theorem lookup_fsRemove_ne (fs : List (String × String)) {p q : String} (h : p ≠ q) :
    lookupStr (fsRemove fs p) q = lookupStr fs q := by
  induction fs with
  | nil => rfl
  | cons e rest ih =>
    by_cases hep : e.1 = p
    · have heq : ¬ e.1 = q := by rw [hep]; exact h
      simp [fsRemove, hep, ih, lookupStr, heq, h]
    · by_cases heq : e.1 = q <;>
        simp [fsRemove, hep, ih, lookupStr, heq, h, Ne.symm h]

theorem lookup_fsSet_self (fs : List (String × String)) (p v : String) :
    lookupStr (fsSet fs p v) p = some v := by
  simp [fsSet, lookupStr]

theorem lookup_fsSet_ne (fs : List (String × String)) (v : String) {p q : String} (h : p ≠ q) :
    lookupStr (fsSet fs p v) q = lookupStr fs q := by
  simp only [fsSet, lookupStr, if_neg h]
  exact lookup_fsRemove_ne fs h

/-! ## Helper lemmas about result handling -/

theorem handleResults_foldl_true (l : List (String × NornirResult)) :
    l.foldl (fun acc hr => if classifyStatus hr.2 = TaskStatus.FAILED then true else acc) true =
      true := by
  induction l with
  | nil => rfl
  | cons hr t ih =>
    rw [List.foldl_cons, ite_self]
    exact ih

theorem handleResults_cons (hr : String × NornirResult) (t : List (String × NornirResult)) :
    handleResults (hr :: t) =
      if classifyStatus hr.2 = TaskStatus.FAILED then true else handleResults t := by
  unfold handleResults
  rw [List.foldl_cons]
  by_cases h : classifyStatus hr.2 = TaskStatus.FAILED
  · rw [if_pos h, if_pos h]
    exact handleResults_foldl_true t
  · rw [if_neg h, if_neg h]

theorem handleResults_eq_false_iff (agg : List (String × NornirResult)) :
    handleResults agg = false ↔ ∀ hr ∈ agg, classifyStatus hr.2 ≠ TaskStatus.FAILED := by
  induction agg with
  | nil => simp [handleResults]
  | cons hr t ih =>
    rw [handleResults_cons]
    by_cases h : classifyStatus hr.2 = TaskStatus.FAILED
    · simp [h]
    · simp [h, ih]

theorem handleResults_eq_true_iff (agg : List (String × NornirResult)) :
    handleResults agg = true ↔ ∃ hr ∈ agg, classifyStatus hr.2 = TaskStatus.FAILED := by
  rw [← not_iff_not]
  simp only [Bool.not_eq_true, handleResults_eq_false_iff]
  push_neg
  rfl

/-! ## Helper lemmas about the engine loops -/

theorem runTasks_cons (b : String → String → NornirResult) (g : String)
    (hns : List String) (t : String) (ts : List String) :
    runTasks b g hns (t :: ts) =
      if handleResults (dispatchTask b hns t) = true
      then ([⟨g, t, dispatchTask b hns t⟩], true)
      else (⟨g, t, dispatchTask b hns t⟩ :: (runTasks b g hns ts).1,
            (runTasks b g hns ts).2) := rfl

theorem runGroups_cons (b : String → String → NornirResult)
    (table : List (String × List String)) (hosts : List Host) (filter : Option String)
    (g : String) (gs : List String) :
    runGroups b table hosts filter (g :: gs) =
      if ((lookupStr table g).getD []).isEmpty = true then runGroups b table hosts filter gs
      else if (hostNamesFor hosts filter g).isEmpty = true then runGroups b table hosts filter gs
      else if (runTasks b g (hostNamesFor hosts filter g) ((lookupStr table g).getD [])).2 = true
      then ((runTasks b g (hostNamesFor hosts filter g) ((lookupStr table g).getD [])).1, true)
      else ((runTasks b g (hostNamesFor hosts filter g) ((lookupStr table g).getD [])).1 ++
              (runGroups b table hosts filter gs).1,
            (runGroups b table hosts filter gs).2) := rfl

theorem runTasks_halt (b : String → String → NornirResult) (g : String) (hns : List String) :
    ∀ (ts : List String) (d : Dispatch), d ∈ (runTasks b g hns ts).1 →
      handleResults d.results = true →
      (runTasks b g hns ts).2 = true ∧ (runTasks b g hns ts).1.getLast? = some d := by
  intro ts
  induction ts with
  | nil =>
    intro d hd hf
    simp [runTasks] at hd
  | cons t ts ih =>
    intro d hd hf
    rw [runTasks_cons] at hd ⊢
    by_cases hh : handleResults (dispatchTask b hns t) = true
    · rw [if_pos hh] at hd ⊢
      have hd' : d = ⟨g, t, dispatchTask b hns t⟩ := List.mem_singleton.mp hd
      subst hd'
      exact ⟨rfl, rfl⟩
    · rw [if_neg hh] at hd ⊢
      rcases List.mem_cons.mp hd with hd' | hd'
      · exfalso
        apply hh
        rw [← hf, hd']
      · obtain ⟨h2, hlast⟩ := ih d hd' hf
        refine ⟨h2, ?_⟩
        cases hrest : (runTasks b g hns ts).1 with
        | nil => rw [hrest] at hlast; simp at hlast
        | cons y ys =>
          rw [hrest] at hlast
          rw [List.getLast?_cons_cons, hlast]

theorem runGroups_halt (b : String → String → NornirResult)
    (table : List (String × List String)) (hosts : List Host) (filter : Option String) :
    ∀ (gs : List String) (d : Dispatch), d ∈ (runGroups b table hosts filter gs).1 →
      handleResults d.results = true →
      (runGroups b table hosts filter gs).2 = true ∧
        (runGroups b table hosts filter gs).1.getLast? = some d := by
  intro gs
  induction gs with
  | nil =>
    intro d hd hf
    simp [runGroups] at hd
  | cons g gs ih =>
    intro d hd hf
    rw [runGroups_cons] at hd ⊢
    by_cases h1 : ((lookupStr table g).getD []).isEmpty = true
    · rw [if_pos h1] at hd ⊢
      exact ih d hd hf
    · rw [if_neg h1] at hd ⊢
      by_cases h2 : (hostNamesFor hosts filter g).isEmpty = true
      · rw [if_pos h2] at hd ⊢
        exact ih d hd hf
      · rw [if_neg h2] at hd ⊢
        by_cases h3 :
            (runTasks b g (hostNamesFor hosts filter g) ((lookupStr table g).getD [])).2 = true
        · rw [if_pos h3] at hd ⊢
          obtain ⟨_, hlast⟩ := runTasks_halt b g (hostNamesFor hosts filter g)
            ((lookupStr table g).getD []) d hd hf
          exact ⟨rfl, hlast⟩
        · rw [if_neg h3] at hd ⊢
          rcases List.mem_append.mp hd with hd' | hd'
          · exfalso
            apply h3
            exact (runTasks_halt b g (hostNamesFor hosts filter g)
              ((lookupStr table g).getD []) d hd' hf).1
          · obtain ⟨h2', hlast⟩ := ih d hd' hf
            refine ⟨h2', ?_⟩
            have hne : (runGroups b table hosts filter gs).1 ≠ [] := by
              intro hnil
              rw [hnil] at hlast
              simp at hlast
            rw [List.getLast?_append_of_ne_nil _ hne, hlast]

theorem runTasks_no_fail (b : String → String → NornirResult) (g : String) (hns : List String)
    (hok : ∀ t h, classifyStatus (b t h) ≠ TaskStatus.FAILED) :
    ∀ ts : List String,
      runTasks b g hns ts = (ts.map fun t => ⟨g, t, dispatchTask b hns t⟩, false) := by
  intro ts
  induction ts with
  | nil => rfl
  | cons t ts ih =>
    have hh : handleResults (dispatchTask b hns t) = false := by
      rw [handleResults_eq_false_iff]
      intro hr hmem
      obtain ⟨h, _, rfl⟩ := List.mem_map.mp hmem
      exact hok t h
    rw [runTasks_cons, if_neg (by rw [hh]; exact Bool.false_ne_true), ih]
    rfl

theorem runGroups_no_fail (b : String → String → NornirResult)
    (table : List (String × List String)) (hosts : List Host) (filter : Option String)
    (hok : ∀ t h, classifyStatus (b t h) ≠ TaskStatus.FAILED) :
    ∀ gs : List String,
      runGroups b table hosts filter gs =
        ((gs.map (groupTrace b table hosts filter)).flatten, false) := by
  intro gs
  induction gs with
  | nil => rfl
  | cons g gs ih =>
    rw [runGroups_cons]
    by_cases h1 : ((lookupStr table g).getD []).isEmpty = true
    · rw [if_pos h1, ih]
      simp [groupTrace, h1]
    · rw [if_neg h1]
      by_cases h2 : (hostNamesFor hosts filter g).isEmpty = true
      · rw [if_pos h2, ih]
        simp [groupTrace, h1, h2]
      · rw [if_neg h2]
        rw [runTasks_no_fail b g (hostNamesFor hosts filter g) hok]
        rw [if_neg (by exact Bool.false_ne_true), ih]
        simp [groupTrace, h1, h2]

/-! ## Claim C1 — the engine halts the whole run on the first FAILED status -/

/-- C1: for every run of the engine, if any host's result of a dispatched
task is classified `FAILED` (in particular whenever its `StandardResult`
payload has status `FAILED`), that dispatch is the last one of the run — no
further task of the same group and no task of any later group is dispatched —
and the run exits through `sys.exit(1)`, a non-zero completion. -/
theorem engine_halts_on_failed_status (b : String → String → NornirResult)
    (registry : List (String × List (String × List String))) (hosts : List Host)
    (goal : String) (filter : Option String) (d : Dispatch)
    (hd : d ∈ (MatrixEngine.run b registry hosts goal filter).trace)
    (hf : ∃ hr ∈ d.results, classifyStatus hr.2 = TaskStatus.FAILED) :
    (MatrixEngine.run b registry hosts goal filter).exit = RunExit.halted ∧
    (MatrixEngine.run b registry hosts goal filter).trace.getLast? = some d ∧
    exitCode (MatrixEngine.run b registry hosts goal filter).exit ≠ 0 := by
  have hf' : handleResults d.results = true := (handleResults_eq_true_iff d.results).mpr hf
  cases hlook : lookupStr registry goal with
  | none =>
    exfalso
    simp [MatrixEngine.run, hlook] at hd
  | some table =>
    have htr : (MatrixEngine.run b registry hosts goal filter).trace =
        (runGroups b table hosts filter GROUP_EXECUTION_ORDER).1 := by
      simp [MatrixEngine.run, hlook]
    rw [htr] at hd
    obtain ⟨hhalt, hlast⟩ :=
      runGroups_halt b table hosts filter GROUP_EXECUTION_ORDER d hd hf'
    have hexit : (MatrixEngine.run b registry hosts goal filter).exit = RunExit.halted := by
      simp [MatrixEngine.run, hlook, hhalt]
    refine ⟨hexit, ?_, ?_⟩
    · rw [htr]
      exact hlast
    · rw [hexit]
      simp [exitCode]

/-- Witness for C1: with the two-group fixture registry, a first task that
fails on the only local host ends the run immediately: that dispatch is the
whole trace and the exit is the non-zero halt. -/
theorem engine_halts_on_failed_status_witness :
    dFail ∈ (MatrixEngine.run bAllFail wRegistry wHosts ("DEPLOY") none).trace ∧
    (MatrixEngine.run bAllFail wRegistry wHosts ("DEPLOY") none).exit = RunExit.halted ∧
    (MatrixEngine.run bAllFail wRegistry wHosts ("DEPLOY") none).trace.getLast? = some dFail ∧
    exitCode (MatrixEngine.run bAllFail wRegistry wHosts ("DEPLOY") none).exit ≠ 0 := by
  have hd : dFail ∈ (MatrixEngine.run bAllFail wRegistry wHosts ("DEPLOY") none).trace := by
    decide
  have hf : ∃ hr ∈ dFail.results, classifyStatus hr.2 = TaskStatus.FAILED := by decide
  have h := engine_halts_on_failed_status bAllFail wRegistry wHosts ("DEPLOY") none dFail hd hf
  exact ⟨hd, h.1, h.2.1, h.2.2⟩

/-! ## Claim C5 — fixed group order, chain order inside a group -/

/-- C5: the engine iterates the groups in the fixed order local machine,
control plane, workers; when no dispatch produces a `FAILED` status, the run
trace is exactly the concatenation, group by group in that order, of each
group's task chain in registry order, each dispatch carrying the results of
every filtered host of the group (the join barrier), and the run completes.
So every task's dispatch finishes on all hosts before the next chain task is
dispatched and a group's chain finishes before the next group starts. -/
theorem engine_group_task_ordering (b : String → String → NornirResult)
    (registry : List (String × List (String × List String))) (hosts : List Host)
    (goal : String) (filter : Option String) (table : List (String × List String))
    (hlook : lookupStr registry goal = some table)
    (hok : ∀ t h, classifyStatus (b t h) ≠ TaskStatus.FAILED) :
    GROUP_EXECUTION_ORDER = ["local_machine", "k8s_control_plane", "k8s_worker"] ∧
    MatrixEngine.run b registry hosts goal filter =
      ⟨specOrderedTrace b table hosts filter, RunExit.completed⟩ := by
  refine ⟨rfl, ?_⟩
  simp [MatrixEngine.run, hlook, runGroups_no_fail b table hosts filter hok, specOrderedTrace]

/-- Witness for C5: under an all-success behaviour the fixture run equals the
spec-ordered trace and completes. -/
theorem engine_group_task_ordering_witness :
    lookupStr wRegistry ("DEPLOY") =
        some [("local_machine", ["T1"]), ("k8s_control_plane", ["T2"])] ∧
    (∀ t h, classifyStatus (bAllOk t h) ≠ TaskStatus.FAILED) ∧
    MatrixEngine.run bAllOk wRegistry wHosts ("DEPLOY") none =
      ⟨specOrderedTrace bAllOk [("local_machine", ["T1"]), ("k8s_control_plane", ["T2"])]
          wHosts none,
        RunExit.completed⟩ := by
  have hok : ∀ t h, classifyStatus (bAllOk t h) ≠ TaskStatus.FAILED := by
    intro t h
    show classifyStatus okResult ≠ TaskStatus.FAILED
    decide
  have hlook : lookupStr wRegistry ("DEPLOY") =
      some [("local_machine", ["T1"]), ("k8s_control_plane", ["T2"])] := by decide
  exact ⟨hlook, hok,
    (engine_group_task_ordering bAllOk wRegistry wHosts ("DEPLOY") none _ hlook hok).2⟩

/-! ## Helper lemmas about `read_file` and the `write_file` success path -/

theorem read_file_eq (fs : List (String × String)) (p : String) :
    read_file fs p = (lookupStr fs p).getD "" := by
  unfold read_file
  cases lookupStr fs p <;> rfl

theorem read_file_fsSet_self (fs : List (String × String)) (p v : String) :
    read_file (fsSet fs p v) p = v := by
  rw [read_file_eq, lookup_fsSet_self]
  rfl

theorem read_file_fsSet_ne (fs : List (String × String)) (v : String) {p q : String}
    (h : p ≠ q) : read_file (fsSet fs p v) q = read_file fs q := by
  rw [read_file_eq, lookup_fsSet_ne fs v h, read_file_eq]

theorem write_file_success (md5 : String → String) (env : WriteEnv)
    (fs : List (String × String)) (path content : String)
    (hh : md5 content ≠ md5 (read_file fs path))
    (hscp : env.scpOk = true) (hbk : env.backupOk = true) (hmv : env.mvOk = true)
    (hbt : backupPathOf path env.timestamp ≠ env.tempName) :
    (write_file md5 env fs path content).1 = (false, true, "File updated (Backup saved)") ∧
    read_file (write_file md5 env fs path content).2 path = content := by
  unfold write_file
  rw [if_neg hh]
  by_cases hd : (lookupStr (fsSet fs env.tempName content) path).isSome = true
  · simp [hscp, hbk, hmv, hd]
    rw [read_file_fsSet_self, read_file_fsSet_ne _ _ hbt, read_file_fsSet_self]
  · simp [hscp, hbk, hmv, hd]
    rw [read_file_fsSet_self, read_file_fsSet_self]

/-! ## Claim C2 — idempotent write -/

/-- Helper: a call whose desired-content hash equals the current remote
content's hash returns changed=false without touching the filesystem
(`files.py` lines 44-52). -/
theorem write_file_uptodate (md5 : String → String) (env : WriteEnv)
    (fs : List (String × String)) (path content : String)
    (heq : md5 content = md5 (read_file fs path)) :
    write_file md5 env fs path content = ((false, false, "File is up to date"), fs) := by
  unfold write_file
  rw [if_pos heq]

/-- Counterexample to C2 as stated: the claim quantifies over every target,
path and content, but when the destination already holds exactly the desired
content the FIRST call already returns changed=false (hash equality), so
"calling writeFile twice with identical content yields changed=true then
changed=false" fails at this input. -/
theorem write_file_twice_counterexample :
    wfChanged (write_file (fun s => s) envAllOk [("/etc/motd", "hello")]
        ("/etc/motd") ("hello")).1 = false ∧
    (write_file (fun s => s) envAllOk [("/etc/motd", "hello")] ("/etc/motd") ("hello")).2 =
      [("/etc/motd", "hello")] := by decide

/-- C2 (amended): `write_file` compares the hash of the desired content with
the hash of the current remote content; when they are equal it returns
changed=false without mutating the remote filesystem.  When they differ (and
transfer, backup and move succeed), the call returns changed=true, the file's
bytes equal the given content, and a second call with the same content
returns changed=false leaving the filesystem untouched. -/
theorem write_file_idempotent_amended (md5 : String → String) (env : WriteEnv)
    (fs : List (String × String)) (path content : String)
    (hscp : env.scpOk = true) (hbk : env.backupOk = true) (hmv : env.mvOk = true)
    (hbt : backupPathOf path env.timestamp ≠ env.tempName) :
    (md5 content = md5 (read_file fs path) →
      write_file md5 env fs path content = ((false, false, "File is up to date"), fs)) ∧
    (md5 content ≠ md5 (read_file fs path) →
      (write_file md5 env fs path content).1 = (false, true, "File updated (Backup saved)") ∧
      read_file (write_file md5 env fs path content).2 path = content ∧
      write_file md5 env (write_file md5 env fs path content).2 path content =
        ((false, false, "File is up to date"), (write_file md5 env fs path content).2)) := by
  constructor
  · intro heq
    exact write_file_uptodate md5 env fs path content heq
  · intro hh
    obtain ⟨h1, h2⟩ := write_file_success md5 env fs path content hh hscp hbk hmv hbt
    refine ⟨h1, h2, ?_⟩
    exact write_file_uptodate md5 env _ path content (by rw [h2])

/-- Witness for C2 (amended): writing "new" over "old" yields changed=true
and the new bytes; writing "new" again yields changed=false and no change. -/
theorem write_file_idempotent_amended_witness :
    (write_file (fun s => s) envAllOk [("/etc/motd", "old")] ("/etc/motd") ("new")).1 =
        (false, true, "File updated (Backup saved)") ∧
    read_file (write_file (fun s => s) envAllOk [("/etc/motd", "old")]
        ("/etc/motd") ("new")).2 ("/etc/motd") = "new" ∧
    write_file (fun s => s) envAllOk
        (write_file (fun s => s) envAllOk [("/etc/motd", "old")] ("/etc/motd") ("new")).2
        ("/etc/motd") ("new") =
      ((false, false, "File is up to date"),
        (write_file (fun s => s) envAllOk [("/etc/motd", "old")] ("/etc/motd") ("new")).2) :=
  (write_file_idempotent_amended (fun s => s) envAllOk [("/etc/motd", "old")] ("/etc/motd")
      ("new") (by decide) (by decide) (by decide) (by decide)).2 (by decide)

/-! ## Claim C3 — a failed backup aborts the write -/

/-- C3: when the destination exists, the hashes differ, the transfer
succeeded and the backup command fails, `write_file` returns a failed result
naming the backup stage, removes the staged remote temp file, and leaves the
destination's content exactly as before the call (`files.py` lines 85-106). -/
theorem write_file_backup_failure_aborts (md5 : String → String) (env : WriteEnv)
    (fs : List (String × String)) (path content : String)
    (hex : (lookupStr fs path).isSome = true)
    (hh : md5 content ≠ md5 (read_file fs path))
    (hscp : env.scpOk = true) (hbk : env.backupOk = false)
    (htp : env.tempName ≠ path) :
    (write_file md5 env fs path content).1 = (true, false, "Backup failed: " ++ env.backupErr) ∧
    lookupStr (write_file md5 env fs path content).2 env.tempName = none ∧
    lookupStr (write_file md5 env fs path content).2 path = lookupStr fs path := by
  unfold write_file
  rw [if_neg hh]
  have hd : (lookupStr (fsSet fs env.tempName content) path).isSome = true := by
    rw [lookup_fsSet_ne fs content htp]
    exact hex
  simp [hscp, hbk, hd]
  constructor
  · rw [lookup_fsRemove_self]
  · rw [lookup_fsRemove_ne _ htp, lookup_fsSet_ne fs content htp]

/-- Witness for C3: overwriting /etc/hosts while the backup command fails
returns the backup-stage failure, leaves no temp file and keeps the old
bytes. -/
theorem write_file_backup_failure_aborts_witness :
    (write_file (fun s => s) envBackupFails [("/etc/hosts", "old")] ("/etc/hosts") ("new")).1 =
        (true, false, "Backup failed: " ++ envBackupFails.backupErr) ∧
    lookupStr (write_file (fun s => s) envBackupFails [("/etc/hosts", "old")]
        ("/etc/hosts") ("new")).2 ("/tmp/calcifer_aaaa") = none ∧
    lookupStr (write_file (fun s => s) envBackupFails [("/etc/hosts", "old")]
        ("/etc/hosts") ("new")).2 ("/etc/hosts") = some "old" := by
  have h := write_file_backup_failure_aborts (fun s => s) envBackupFails
    [("/etc/hosts", "old")] ("/etc/hosts") ("new")
    (by decide) (by decide) (by decide) (by decide) (by decide)
  exact ⟨h.1, h.2.1, h.2.2.trans (by decide)⟩

/-! ## Claim C9 — per-stage failure reporting -/

/-- Counterexample to C9 as stated: the claim says a permission-fix
(chown/chmod) failure produces a failed result, but `files.py` lines 116-121
discard the results of the `chown` and `chmod` commands, so with a failing
chown the call still reports success with changed=true. -/
theorem write_file_chown_failure_ignored_counterexample :
    envChownFails.chownOk = false ∧
    (write_file (fun s => s) envChownFails [("/etc/hosts", "old")] ("/etc/hosts") ("new")).1 =
      (false, true, "File updated (Backup saved)") := by decide

/-- C9 (amended): a failure of the transfer, backup, or move stage each
produces a failed result whose message names the failing stage ("SCP
Failed: ", "Backup failed: ", "Move failed: "); a permission-fix
(chown/chmod) failure is ignored — once transfer, backup and move succeed the
call reports success regardless of the `chown`/`chmod` outcomes (note that
neither `chownOk` nor `chmodOk` is constrained in the last conjunct). -/
theorem write_file_stage_failures_amended (md5 : String → String) (env : WriteEnv)
    (fs : List (String × String)) (path content : String)
    (hh : md5 content ≠ md5 (read_file fs path))
    (htp : env.tempName ≠ path)
    (hbt : backupPathOf path env.timestamp ≠ env.tempName) :
    (env.scpOk = false →
      (write_file md5 env fs path content).1 = (true, false, "SCP Failed: " ++ env.scpErr)) ∧
    (env.scpOk = true → env.backupOk = false → (lookupStr fs path).isSome = true →
      (write_file md5 env fs path content).1 =
        (true, false, "Backup failed: " ++ env.backupErr)) ∧
    (env.scpOk = true → env.backupOk = true → env.mvOk = false →
      (write_file md5 env fs path content).1 = (true, false, "Move failed: " ++ env.mvErr)) ∧
    (env.scpOk = true → env.backupOk = true → env.mvOk = true →
      (write_file md5 env fs path content).1 = (false, true, "File updated (Backup saved)")) := by
  refine ⟨?_, ?_, ?_, ?_⟩
  · intro hscp
    unfold write_file
    rw [if_neg hh]
    simp [hscp]
  · intro hscp hbk hex
    exact (write_file_backup_failure_aborts md5 env fs path content hex hh hscp hbk htp).1
  · intro hscp hbk hmv
    unfold write_file
    rw [if_neg hh]
    by_cases hd : (lookupStr (fsSet fs env.tempName content) path).isSome = true
    · simp [hscp, hbk, hmv, hd]
    · simp [hscp, hbk, hmv, hd]
  · intro hscp hbk hmv
    exact (write_file_success md5 env fs path content hh hscp hbk hmv hbt).1

/-- Witness for C9 (amended): a failing `mv` yields the move-stage failure
message. -/
theorem write_file_stage_failures_amended_witness :
    (write_file (fun s => s) envMoveFails [("/etc/hosts", "old")] ("/etc/hosts") ("new")).1 =
      (true, false, "Move failed: " ++ envMoveFails.mvErr) :=
  (write_file_stage_failures_amended (fun s => s) envMoveFails [("/etc/hosts", "old")]
      ("/etc/hosts") ("new") (by decide) (by decide) (by decide)).2.2.1
    (by decide) (by decide) (by decide)

/-! ## Claim C8 — ensure_line_in_file -/

/-- Counterexample to C8 as stated: with two lines matching the pattern, the
source replaces BOTH (the loop at `files.py` lines 144-149 substitutes every
matching line), not "exactly the first"; replacing only the first would have
produced "bar\nfoo2\n". -/
theorem ensure_line_replaces_all_counterexample :
    read_file (ensure_line_in_file (fun s => s) envAllOk [("/etc/conf", "foo1\nfoo2\n")]
        ("/etc/conf") ("bar") (some (fun l => charsStartWith ("foo").data l.data))).2 ("/etc/conf") =
      "bar\nbar\n" ∧
    "bar\nbar\n" ≠ "bar\nfoo2\n" := by decide

/-- C8 (amended): with a match pattern, every line of the current content
matching the pattern is replaced by the given line (the line is appended when
none matches), and the result is written through `write_file`; without a
pattern, content with the exact line already present is left unchanged with
changed=false, and otherwise the line is appended at the end. -/
theorem ensure_line_in_file_amended (md5 : String → String) (env : WriteEnv)
    (fs : List (String × String)) (path line : String) (regex : String → Bool)
    (hscp : env.scpOk = true) (hbk : env.backupOk = true) (hmv : env.mvOk = true)
    (hbt : backupPathOf path env.timestamp ≠ env.tempName) :
    (md5 (String.intercalate ("\n") (specReplacedLines fs path line regex) ++ "\n") ≠
        md5 (read_file fs path) →
      (ensure_line_in_file md5 env fs path line (some regex)).1 =
          (false, true, "File updated (Backup saved)") ∧
      read_file (ensure_line_in_file md5 env fs path line (some regex)).2 path =
        String.intercalate ("\n") (specReplacedLines fs path line regex) ++ "\n") ∧
    (line ∈ splitLines (read_file fs path) →
      ensure_line_in_file md5 env fs path line none =
        ((false, false, "Line already exists"), fs)) ∧
    (line ∉ splitLines (read_file fs path) →
      md5 (String.intercalate ("\n") (splitLines (read_file fs path) ++ [line]) ++ "\n") ≠
          md5 (read_file fs path) →
      read_file (ensure_line_in_file md5 env fs path line none).2 path =
        String.intercalate ("\n") (splitLines (read_file fs path) ++ [line]) ++ "\n") := by
  have hnone : ensure_line_in_file md5 env fs path line none =
      if line ∈ splitLines (read_file fs path) then ((false, false, "Line already exists"), fs)
      else write_file md5 env fs path
        (String.intercalate ("\n") (splitLines (read_file fs path) ++ [line]) ++ "\n") := rfl
  refine ⟨?_, ?_, ?_⟩
  · intro hh
    have hsome : ensure_line_in_file md5 env fs path line (some regex) =
        write_file md5 env fs path
          (String.intercalate ("\n") (specReplacedLines fs path line regex) ++ "\n") := rfl
    rw [hsome]
    exact write_file_success md5 env fs path _ hh hscp hbk hmv hbt
  · intro hmem
    rw [hnone, if_pos hmem]
  · intro hmem hh
    rw [hnone, if_neg hmem]
    exact (write_file_success md5 env fs path _ hh hscp hbk hmv hbt).2

/-- Witness for C8 (amended): replacing the line matching `l == "b"` in
"a\nb" by "x" yields "a\nx\n" with changed=true. -/
theorem ensure_line_in_file_amended_witness :
    (ensure_line_in_file (fun s => s) envAllOk [("/etc/conf", "a\nb")] ("/etc/conf") ("x")
        (some (fun l => l == ("b")))).1 = (false, true, "File updated (Backup saved)") ∧
    read_file (ensure_line_in_file (fun s => s) envAllOk [("/etc/conf", "a\nb")] ("/etc/conf")
        ("x") (some (fun l => l == ("b")))).2 ("/etc/conf") = "a\nx\n" := by
  have h := (ensure_line_in_file_amended (fun s => s) envAllOk [("/etc/conf", "a\nb")]
      ("/etc/conf") ("x") (fun l => l == ("b"))
      (by decide) (by decide) (by decide) (by decide)).1 (by decide)
  refine ⟨h.1, ?_⟩
  rw [h.2]
  decide

/-! ## Claim C4 — no exception escapes a Task invocation -/

/-- C4: `automated_step` is total (every Task invocation outcome maps to a
Nornir result, so the engine loop never sees an exception): a normal return
passes through unchanged, and a raised exception is converted into a failed
result whose payload is a `StandardResult` with status `FAILED` and a message
beginning "System Error: ". -/
theorem automated_step_no_exception_escapes (e : String) (r : NornirResult) :
    automated_step (TaskOutcome.ok r) = r ∧
    (automated_step (TaskOutcome.exc e)).failed = true ∧
    automated_step (TaskOutcome.exc e) =
      ⟨true, ResultPayload.standard ⟨TaskStatus.FAILED, "System Error: " ++ e⟩⟩ ∧
    (∃ t, resultMessage (automated_step (TaskOutcome.exc e)) = "System Error: " ++ t) :=
  ⟨rfl, rfl, rfl, ⟨e, rfl⟩⟩

/-! ## Claim C10 — halt decision depends only on the payload status -/

/-- C10: when the payload is a `StandardResult` the classification is its
`status` field alone — the outer `failed` flag is ignored, so a result with
failed=true but a non-FAILED status contributes nothing to the halt decision;
when the payload is not a `StandardResult`, the classification is `FAILED`
exactly when the outer `failed` flag is set and `OK` otherwise. -/
theorem handle_results_payload_classification (f : Bool) (sr : StandardResult)
    (s host : String) (rest : List (String × NornirResult)) :
    classifyStatus ⟨f, ResultPayload.standard sr⟩ = sr.status ∧
    classifyStatus ⟨f, ResultPayload.other s⟩ =
      (if f then TaskStatus.FAILED else TaskStatus.OK) ∧
    (sr.status ≠ TaskStatus.FAILED →
      handleResults ((host, ⟨true, ResultPayload.standard sr⟩) :: rest) = handleResults rest) := by
  refine ⟨rfl, rfl, ?_⟩
  intro hs
  rw [handleResults_cons]
  simp [classifyStatus, hs]

/-- Witness for C10: a failed=true result whose standard payload says CHANGED
is classified CHANGED and does not make `_handle_results` halt, while a
failed=true non-standard payload is classified FAILED. -/
theorem handle_results_payload_classification_witness :
    classifyStatus ⟨true, ResultPayload.standard ⟨TaskStatus.CHANGED, "did"⟩⟩ =
        TaskStatus.CHANGED ∧
    classifyStatus ⟨true, ResultPayload.other ("traceback")⟩ = TaskStatus.FAILED ∧
    handleResults [("h1", ⟨true, ResultPayload.standard ⟨TaskStatus.CHANGED, "did"⟩⟩)] =
      false := by
  have h := handle_results_payload_classification true ⟨TaskStatus.CHANGED, "did"⟩
    ("traceback") ("h1") []
  exact ⟨h.1, h.2.1.trans (by decide), (h.2.2 (by decide)).trans (by decide)⟩

/-! ## Claim C7 — escalation wrapping in the dispatcher -/

/-- Counterexample to C7 as stated: with a cached elevation secret available,
`run_command` of `src/tasks/utils/command.py` still wraps the command as
non-interactive passwordless `sudo -n ...` — it does not pipe the secret to
the sudo prompt (the piping form, built here by `legacySudoWrap`, exists only
in the superseded `src/tasks/utils.py`).  The executor argument echoes the
command it receives, exposing the wrapping. -/
theorem run_command_secret_ignored_counterexample :
    run_command ("alice") ("node1") (some ("hunter2"))
        (fun c => (⟨false, c⟩ : CmdResult)) ("whoami") true =
      ⟨false, "sudo -n whoami"⟩ ∧
    "sudo -n whoami" ≠ legacySudoWrap (some ("hunter2")) true ("whoami") := by decide

/-- C7 (amended): with escalation requested, `run_command` wraps the command
for passwordless non-interactive elevation (`sudo -n`) regardless of whether
a cached elevation secret is configured (the secret parameter is ignored);
when the executed command fails reporting "sudo: a password is required",
the call fails with the distinguished message telling the operator to
configure NOPASSWD for that user/host pair, and otherwise the transport
result is returned unchanged. -/
theorem run_command_escalation_amended (user host : String) (s1 s2 : Option String)
    (execCmd : String → CmdResult) (cmd : String) :
    run_command user host s1 execCmd cmd true = run_command user host s2 execCmd cmd true ∧
    (((execCmd ("sudo -n " ++ cmd)).failed &&
        containsSubstr (execCmd ("sudo -n " ++ cmd)).output
          ("sudo: a password is required")) = true →
      run_command user host s1 execCmd cmd true = ⟨true, sudoMissingMsg user host⟩) ∧
    (((execCmd ("sudo -n " ++ cmd)).failed &&
        containsSubstr (execCmd ("sudo -n " ++ cmd)).output
          ("sudo: a password is required")) = false →
      run_command user host s1 execCmd cmd true = execCmd ("sudo -n " ++ cmd)) := by
  refine ⟨rfl, ?_, ?_⟩
  · intro hcond
    unfold run_command
    simp [hcond]
  · intro hcond
    unfold run_command
    simp [hcond]

/-- Witness for C7 (amended): a transport reporting the sudo password
requirement produces the distinguished NOPASSWD message, identically with and
without a cached secret. -/
theorem run_command_escalation_amended_witness :
    run_command ("alice") ("node1") (some ("hunter2"))
        (fun _ => (⟨true, "sudo: a password is required"⟩ : CmdResult)) ("whoami") true =
      ⟨true, sudoMissingMsg ("alice") ("node1")⟩ ∧
    run_command ("alice") ("node1") none
        (fun _ => (⟨true, "sudo: a password is required"⟩ : CmdResult)) ("whoami") true =
      ⟨true, sudoMissingMsg ("alice") ("node1")⟩ := by
  have h := run_command_escalation_amended ("alice") ("node1") (some ("hunter2")) none
    (fun _ => (⟨true, "sudo: a password is required"⟩ : CmdResult)) ("whoami")
  refine ⟨h.2.1 (by decide), ?_⟩
  rw [← h.1]
  exact h.2.1 (by decide)

/-! ## Claim C6 — unknown goal -/

/-- Counterexample to C6 as stated: running an unknown goal dispatches
nothing, but the claim's "process exit code is non-zero" is false — the
engine prints an error and plainly returns (engine.py lines 36-38), and the
CLI command then finishes normally, so the process exit code is 0. -/
theorem unknown_goal_exit_code_counterexample :
    (MatrixEngine.run bAllOk TASK_REGISTRY wHosts ("NONEXISTENT_GOAL") none).trace = [] ∧
    exitCode (MatrixEngine.run bAllOk TASK_REGISTRY wHosts ("NONEXISTENT_GOAL") none).exit =
      0 := by decide

/-- C6 (amended): for every goal not present in the task registry, the run
contacts zero hosts and dispatches no task, ending as `unknownGoal` after
only printing an error; the process exit code is 0, not non-zero. -/
theorem unknown_goal_no_dispatch_amended (b : String → String → NornirResult)
    (hosts : List Host) (goal : String) (filter : Option String)
    (hun : lookupStr TASK_REGISTRY goal = none) :
    MatrixEngine.run b TASK_REGISTRY hosts goal filter = ⟨[], RunExit.unknownGoal⟩ ∧
    exitCode (MatrixEngine.run b TASK_REGISTRY hosts goal filter).exit = 0 := by
  have hrun : MatrixEngine.run b TASK_REGISTRY hosts goal filter =
      ⟨[], RunExit.unknownGoal⟩ := by
    unfold MatrixEngine.run
    rw [hun]
  exact ⟨hrun, by rw [hrun]; rfl⟩

/-- Witness for C6 (amended): the goal "CHECK" (which `main.py verify`
actually requests) is not in `TASK_REGISTRY`; running it dispatches nothing
and exits 0. -/
theorem unknown_goal_no_dispatch_amended_witness :
    MatrixEngine.run bAllOk TASK_REGISTRY wHosts ("CHECK") none =
      ⟨[], RunExit.unknownGoal⟩ ∧
    exitCode (MatrixEngine.run bAllOk TASK_REGISTRY wHosts ("CHECK") none).exit = 0 :=
  unknown_goal_no_dispatch_amended bAllOk wHosts ("CHECK") none (by decide)
